import Mathlib

/-!
Shallow embedding of psmc_check (src/psmc_check/psmc_check.py) and proofs
about it.  Timestamps are integers (seconds since epoch) and temperatures
are rationals (degrees C).  A Python float NaN that arises from averaging
an empty slice is modelled by the value none of Option ℚ; a Python None
argument is the outer none of an Option.  External collaborators (the
xija model engine, the command-state database, the off-nominal-roll
utility, the date conversion, and the filesystem) are parameters of the
embedded functions, so every theorem quantifies over them.
-/

namespace Psmc

/-- One row of the telemetry table tlm: a timestamp (seconds) and the
tracked-sensor (1PDEAAT) reading of that sample. -/
structure TlmRow where
  date : ℤ
  msidVal : ℚ
deriving DecidableEq

/-- The point-in-time state returned by the external
Chandra.cmd_states.get_state0 lookup, restricted to the fields the
embedded code touches.  The field tmsid models the dictionary entry under
the key self.t_msid; it is Option ℚ because the value written there by
set_initial_state is NaN (none) when the averaging window is empty. -/
structure State0 where
  tstart : ℤ
  tstop : ℤ
  simpos : ℤ
  pitch : ℚ
  ccd_count : ℕ
  fep_count : ℕ
  vid_board : Bool
  clocking : Bool
  tmsid : Option ℚ
deriving DecidableEq

/-- Python negative indexing arr[-k]: the element at position len - k when
k ≤ len, and an IndexError (none) otherwise. -/
def pyNegIndex {α : Type} (l : List α) (k : ℕ) : Option α :=
  if k ≤ l.length then l.get? (l.length - k) else none

/-- numpy.mean over a 1-D slice: NaN (none) on an empty slice, otherwise
the arithmetic mean sum / length. -/
def npMean (l : List ℚ) : Option ℚ :=
  if l.isEmpty then none else some (l.sum / (l.length : ℚ))

/-- The boolean window mask ok of set_initial_state:
state0.tstart - 700 <= date <= state0.tstart + 700 (both ends inclusive,
an elementwise conjunction of the two numpy comparisons). -/
def windowOk (st0 : State0) (r : TlmRow) : Bool :=
  decide (st0.tstart - 700 ≤ r.date) && decide (r.date ≤ st0.tstart + 700)

/-- PSMCModelCheck.set_initial_state.  The state database
(DateTime conversion composed with get_state0 at datepar datestart,
date_margin -100) is the abstract parameter db; it is consulted at the
date of the fifth-from-last telemetry row.  The returned state is the
looked-up state with the tracked-sensor entry replaced by the mean of the
telemetry samples inside the ±700 s window around the state start. -/
def set_initial_state (db : ℤ → Option State0) (tlm : List TlmRow) :
    Option State0 :=
  match pyNegIndex tlm 5 with
  | none => none
  | some row =>
    match db row.date with
    | none => none
    | some st0 =>
      some { st0 with
             tmsid := npMean ((tlm.filter (windowOk st0)).map TlmRow.msidVal) }

/-- Helper: when the telemetry table has at least five rows, pyNegIndex
at 5 returns exactly the element at index length - 5. -/
theorem pyNegIndex_five {α : Type} (l : List α) (h : 5 ≤ l.length) :
    pyNegIndex l 5 = l.get? (l.length - 5) := by
  simp [pyNegIndex, h]

/-- Claim C2: whenever the fifth-from-last telemetry date resolves to a
prior state, set_initial_state returns that state with only its
tracked-sensor entry replaced, the replacement being the numpy mean of
the tracked-sensor samples whose timestamps satisfy
tstart - 700 ≤ date ≤ tstart + 700; when that window is nonempty the
value is the arithmetic mean (sum divided by count) of those samples. -/
theorem claim_C2 (db : ℤ → Option State0) (tlm : List TlmRow)
    (row : TlmRow) (st0 : State0)
    (hrow : pyNegIndex tlm 5 = some row)
    (hdb : db row.date = some st0) :
    set_initial_state db tlm =
      some { st0 with
             tmsid := npMean ((tlm.filter (windowOk st0)).map TlmRow.msidVal) }
    ∧ ((tlm.filter (windowOk st0)).map TlmRow.msidVal ≠ [] →
        npMean ((tlm.filter (windowOk st0)).map TlmRow.msidVal) =
          some (((tlm.filter (windowOk st0)).map TlmRow.msidVal).sum /
                (((tlm.filter (windowOk st0)).map TlmRow.msidVal).length : ℚ))) := by
  constructor
  · simp [set_initial_state, hrow, hdb]
  · intro hne
    simp [npMean, hne]

/-- Example database and telemetry used by witness statements: five
samples around time 1000, all inside the window of a state starting at
time 1000. -/
def wSt0 : State0 :=
  { tstart := 1000, tstop := 2000, simpos := 75000, pitch := 150,
    ccd_count := 4, fep_count := 4, vid_board := true, clocking := true,
    tmsid := none }

def wTlm : List TlmRow :=
  [⟨400, 40⟩, ⟨600, 41⟩, ⟨800, 42⟩, ⟨1000, 43⟩, ⟨1200, 44⟩]

def wDb : ℤ → Option State0 := fun d => if d = 400 then some wSt0 else none

/-- Witness for C2 at the concrete database wDb and telemetry wTlm. -/
theorem claim_C2_witness :
    set_initial_state wDb wTlm =
      some { wSt0 with
             tmsid := npMean ((wTlm.filter (windowOk wSt0)).map TlmRow.msidVal) }
    ∧ ((wTlm.filter (windowOk wSt0)).map TlmRow.msidVal ≠ [] →
        npMean ((wTlm.filter (windowOk wSt0)).map TlmRow.msidVal) =
          some (((wTlm.filter (windowOk wSt0)).map TlmRow.msidVal).sum /
                (((wTlm.filter (windowOk wSt0)).map TlmRow.msidVal).length : ℚ))) :=
  claim_C2 wDb wTlm ⟨400, 40⟩ wSt0 (by decide) (by decide)

/-- Concrete data refuting claim C4: a resolvable state whose start time
(100000) is far from every telemetry sample, so the ±700 s window is
empty. -/
def cSt0 : State0 :=
  { tstart := 100000, tstop := 100100, simpos := -50000, pitch := 90,
    ccd_count := 6, fep_count := 6, vid_board := false, clocking := false,
    tmsid := some 0 }

def cTlm : List TlmRow :=
  [⟨0, 40⟩, ⟨1, 40⟩, ⟨2, 40⟩, ⟨3, 40⟩, ⟨4, 40⟩]

def cDb : ℤ → Option State0 := fun d => if d = 0 then some cSt0 else none

/-- Claim C4, counterexample: with telemetry cTlm and database cDb the
window around the resolved state is empty, yet set_initial_state does
not fail — it returns a state (with the tracked-sensor entry set to the
NaN produced by numpy.mean of an empty slice). -/
theorem claim_C4_counterexample :
    cTlm.filter (windowOk cSt0) = []
    ∧ cDb (0 : ℤ) = some cSt0
    ∧ set_initial_state cDb cTlm = some { cSt0 with tmsid := none } := by
  decide

/-- Claim C4 as amended: when no telemetry sample lies within ±700 s of
the start time of the resolved reference state, set_initial_state does not
raise; it returns the resolved state with the tracked-sensor temperature
set to NaN (numpy.mean of an empty slice), silently. -/
theorem claim_C4 (db : ℤ → Option State0) (tlm : List TlmRow)
    (row : TlmRow) (st0 : State0)
    (hrow : pyNegIndex tlm 5 = some row)
    (hdb : db row.date = some st0)
    (hempty : tlm.filter (windowOk st0) = []) :
    set_initial_state db tlm = some { st0 with tmsid := none } := by
  simp [set_initial_state, hrow, hdb, hempty, npMean]

/-- Witness for the amended C4 at the concrete empty-window input. -/
theorem claim_C4_witness :
    set_initial_state cDb cTlm = some { cSt0 with tmsid := none } :=
  claim_C4 cDb cTlm ⟨0, 40⟩ cSt0 (by decide) (by decide) (by decide)

/-- Claim C9: set_initial_state indexes the telemetry dates at -5.  For
fewer than five samples the indexing raises (the call fails); for at
least five samples the reference row is the element at index
length - 5, and the state database is consulted only at the date of that
row — two databases that agree there yield identical results. -/
theorem claim_C9 (tlm : List TlmRow) :
    (∀ db : ℤ → Option State0, tlm.length < 5 →
       set_initial_state db tlm = none)
    ∧ (5 ≤ tlm.length →
        ∃ row, tlm.get? (tlm.length - 5) = some row ∧
          ∀ db db' : ℤ → Option State0, db row.date = db' row.date →
            set_initial_state db tlm = set_initial_state db' tlm) := by
  constructor
  · intro db hlt
    simp [set_initial_state, pyNegIndex, Nat.not_le.mpr hlt]
  · intro hge
    have hlt : tlm.length - 5 < tlm.length := by omega
    have hrow : tlm.get? (tlm.length - 5) = some (tlm.get ⟨tlm.length - 5, hlt⟩) :=
      List.get?_eq_get hlt
    refine ⟨tlm.get ⟨tlm.length - 5, hlt⟩, hrow, ?_⟩
    intro db db' hagree
    unfold set_initial_state
    rw [pyNegIndex_five tlm hge, hrow]
    simp only [hagree]

/-- Short telemetry table (four samples) for the C9 witness. -/
def cShortTlm : List TlmRow :=
  [⟨0, 40⟩, ⟨1, 40⟩, ⟨2, 40⟩, ⟨3, 40⟩]

/-- Witness for C9: the four-sample table fails, and on the five-sample
table wTlm the result only depends on the database at the fifth-from-last
date. -/
theorem claim_C9_witness :
    set_initial_state wDb cShortTlm = none
    ∧ (∃ row, wTlm.get? (wTlm.length - 5) = some row ∧
        ∀ db db' : ℤ → Option State0, db row.date = db' row.date →
          set_initial_state db wTlm = set_initial_state db' wTlm) :=
  ⟨(claim_C9 cShortTlm).1 wDb (by decide), (claim_C9 wTlm).2 (by decide)⟩

/-- A value handed to xija comp set_data: either a scalar (broadcast by
the engine over its time grid) or an array.  Entries are Option ℚ so that
a NaN temperature propagates. -/
inductive NpData where
  | scalar (v : Option ℚ)
  | arr (vs : List (Option ℚ))
deriving DecidableEq

/-- The model specification file handed to xija; its contents are opaque
to psmc_check, so a plain identifier suffices. -/
def ModelSpec : Type := String

instance : DecidableEq ModelSpec := fun a b => String.decEq a b

/-- The commanded-states table (one entry per column used by calc_model,
columns aligned elementwise). -/
structure States where
  tstart : List ℤ
  tstop : List ℤ
  simpos : List ℤ
  ccd_count : List ℕ
  fep_count : List ℕ
  vid_board : List Bool
  clocking : List Bool
  pitch : List ℚ
deriving DecidableEq

/-- Everything calc_model feeds into the xija model before make/calc:
one field per comp set_data call, plus the resolved dvals of the 1pdeaat
node (the value the pin1at workaround reads back). -/
structure ModelInputs where
  start : ℤ
  stop : ℤ
  model_spec : ModelSpec
  sim_z_data : List ℤ
  comp_times : List ℤ × List ℤ
  pdeaat_data : Option NpData
  pdeaat_times : Option (List ℤ)
  pdeaat_dvals : List (Option ℚ)
  pin1at_data : NpData
  pin1at_times : Option (List ℤ)
  roll_data : List ℚ
  eclipse_data : Bool
  ccd_count_data : List ℕ
  fep_count_data : List ℕ
  vid_board_data : List Bool
  clocking_data : List Bool
  pitch_data : List ℚ
  dh_heater_data : Option (List Bool)
  dh_heater_times : Option (List ℤ)
deriving DecidableEq

/-- The external xija engine, abstracted: the size of the internal time
grid (for broadcasting a scalar set_data value), the telemetry values the
1pdeaat node fetches when set_data is given None, and the forward
integration performed by make/calc. -/
structure XijaEngine where
  ntimes : ModelSpec → ℤ → ℤ → ℕ
  fetch : ModelSpec → ℤ → ℤ → List (Option ℚ)
  integrate : ModelInputs → List (Option ℚ)

/-- The model object calc_model returns: the driver inputs it was built
from together with the computed output series. -/
structure XModel where
  inputs : ModelInputs
  mvals : List (Option ℚ)
deriving DecidableEq

/-- calc_model of psmc_check.  Parameters eng and calc_off_nom_rolls are
the external engine and roll utility; the remaining arguments follow the
Python signature.  When T_pin1at is None the broken-sensor workaround
sets the pin1at data to the 1pdeaat dvals minus 10.0, elementwise. -/
def calc_model (eng : XijaEngine) (calc_off_nom_rolls : States → List ℚ)
    (model_spec : ModelSpec) (states : States) (start stop : ℤ)
    (T_psmc : Option NpData) (T_psmc_times : Option (List ℤ))
    (T_pin1at : Option NpData) (T_pin1at_times : Option (List ℤ))
    (dh_heater : Option (List Bool)) (dh_heater_times : Option (List ℤ)) :
    XModel :=
  let times := (states.tstart, states.tstop)
  let dvals : List (Option ℚ) :=
    match T_psmc with
    | none => eng.fetch model_spec start stop
    | some (NpData.scalar v) => List.replicate (eng.ntimes model_spec start stop) v
    | some (NpData.arr vs) => vs
  let pin1 : NpData :=
    match T_pin1at with
    | none => NpData.arr (dvals.map (Option.map (fun v => v - 10)))
    | some d => d
  let inp : ModelInputs :=
    { start := start, stop := stop, model_spec := model_spec,
      sim_z_data := states.simpos, comp_times := times,
      pdeaat_data := T_psmc, pdeaat_times := T_psmc_times,
      pdeaat_dvals := dvals,
      pin1at_data := pin1, pin1at_times := T_pin1at_times,
      roll_data := calc_off_nom_rolls states,
      eclipse_data := false,
      ccd_count_data := states.ccd_count, fep_count_data := states.fep_count,
      vid_board_data := states.vid_board, clocking_data := states.clocking,
      pitch_data := states.pitch,
      dh_heater_data := dh_heater, dh_heater_times := dh_heater_times }
  { inputs := inp, mvals := eng.integrate inp }

/-- Claim C8: for every engine, roll utility, model spec, states table,
bounds and remaining arguments, calc_model sets the eclipse driver of
the model to the constant false. -/
theorem claim_C8 (eng : XijaEngine) (rolls : States → List ℚ)
    (model_spec : ModelSpec) (states : States) (start stop : ℤ)
    (T_psmc : Option NpData) (T_psmc_times : Option (List ℤ))
    (T_pin1at : Option NpData) (T_pin1at_times : Option (List ℤ))
    (dh_heater : Option (List Bool)) (dh_heater_times : Option (List ℤ)) :
    (calc_model eng rolls model_spec states start stop T_psmc T_psmc_times
      T_pin1at T_pin1at_times dh_heater dh_heater_times).inputs.eclipse_data
      = false := rfl

/-- Claim C5: calc_model is deterministic — two calls whose model spec,
states, bounds, temperature seeds and heater inputs are equal (run
against the same external engine and roll utility) return equal models,
outputs included. -/
theorem claim_C5 (eng : XijaEngine) (rolls : States → List ℚ)
    (ms1 ms2 : ModelSpec) (st1 st2 : States) (a1 a2 b1 b2 : ℤ)
    (p1 p2 : Option NpData) (pt1 pt2 : Option (List ℤ))
    (q1 q2 : Option NpData) (qt1 qt2 : Option (List ℤ))
    (h1 h2 : Option (List Bool)) (ht1 ht2 : Option (List ℤ))
    (hms : ms1 = ms2) (hst : st1 = st2) (ha : a1 = a2) (hb : b1 = b2)
    (hp : p1 = p2) (hpt : pt1 = pt2) (hq : q1 = q2) (hqt : qt1 = qt2)
    (hh : h1 = h2) (hht : ht1 = ht2) :
    calc_model eng rolls ms1 st1 a1 b1 p1 pt1 q1 qt1 h1 ht1 =
      calc_model eng rolls ms2 st2 a2 b2 p2 pt2 q2 qt2 h2 ht2 := by
  subst hms hst ha hb hp hpt hq hqt hh hht
  rfl

/-- A trivial concrete engine, roll utility and states table for use in
witness statements. -/
def wEng : XijaEngine :=
  { ntimes := fun _ _ _ => 3,
    fetch := fun _ _ _ => [some 40, some 41, some 42],
    integrate := fun inp => inp.pdeaat_dvals }

def wRolls : States → List ℚ := fun _ => [0, 0]

def wStates : States :=
  { tstart := [0, 500], tstop := [500, 1000], simpos := [-50000, 75000],
    ccd_count := [4, 6], fep_count := [4, 6], vid_board := [true, true],
    clocking := [true, false], pitch := [150, 90] }

def wSpec : ModelSpec := "psmc_spec"

/-- Witness for C5: two textually identical calls at concrete inputs. -/
theorem claim_C5_witness :
    calc_model wEng wRolls wSpec wStates 0 1000 (some (NpData.scalar (some 45)))
        none none none (some [true, false]) (some [0, 500]) =
      calc_model wEng wRolls wSpec wStates 0 1000 (some (NpData.scalar (some 45)))
        none none none (some [true, false]) (some [0, 500]) :=
  claim_C5 wEng wRolls wSpec wSpec wStates wStates 0 0 1000 1000
    (some (NpData.scalar (some 45))) (some (NpData.scalar (some 45))) none none
    none none none none (some [true, false]) (some [true, false])
    (some [0, 500]) (some [0, 500])
    rfl rfl rfl rfl rfl rfl rfl rfl rfl rfl

/-- Modelled from the spec: the error taxonomy names the failure raised
when the required heater-command history file is absent
MissingHeaterHistoryError; in the source the failure is whatever
astropy ascii.read raises on the missing path, which is not part of this
repository. -/
inductive Err where
  | MissingHeaterHistoryError (path : String)
deriving DecidableEq

/-- The parsed dahtbon_history.rdb table: a time column (date strings)
and the dahtbon column (integer flags, cast to bool by the wrapper). -/
structure HtrbTable where
  time : List String
  dahtbon : List ℤ
deriving DecidableEq

/-- os.path.join for the one two-component join the wrapper performs. -/
def pathJoin (dir fname : String) : String := dir ++ "/" ++ fname

/-- The fixed name of the heater-command history file. -/
def dahtbonHistoryRdb : String := "dahtbon_history.rdb"

/-- PSMCModelCheck.calc_model_wrapper.  date2secs (Chandra.Time) and the
filesystem fs (astropy ascii.read at rdb format: some table when the
file exists and parses, none when it is absent) are external parameters.
With no initial state every seed and heater argument is None; with an
initial state the tracked-sensor seed is the state temperature, the
companion seed is that temperature minus 10.0, and the heater history is
read from dahtbon_history.rdb in the planning-products directory —
before the model calculation, failing the whole call if absent. -/
def calc_model_wrapper (eng : XijaEngine) (rolls : States → List ℚ)
    (date2secs : String → ℤ) (fs : String → Option HtrbTable)
    (oflsdir : String) (model_spec : ModelSpec) (states : States)
    (tstart tstop : ℤ) (state0 : Option State0) : Except Err XModel :=
  match state0 with
  | none =>
      Except.ok (calc_model eng rolls model_spec states tstart tstop
        none none none none none none)
  | some s =>
      let start_msid := s.tmsid
      let start_pin := s.tmsid.map (fun v => v - 10)
      let htrbfn := pathJoin oflsdir dahtbonHistoryRdb
      match fs htrbfn with
      | none => Except.error (Err.MissingHeaterHistoryError htrbfn)
      | some htrb =>
          let dh_heater_times := htrb.time.map date2secs
          let dh_heater := htrb.dahtbon.map (fun x => x != 0)
          Except.ok (calc_model eng rolls model_spec states tstart tstop
            (some (NpData.scalar start_msid)) none
            (some (NpData.scalar start_pin)) none
            (some dh_heater) (some dh_heater_times))

/-- Claim C1: the companion-sensor seed is always the tracked-sensor
seed minus exactly 10.0.  In calc_model, when T_pin1at is None the
pin1at data is the 1pdeaat dvals minus 10.0 elementwise; in
calc_model_wrapper, when an initial state is present (and the heater
file exists, so a model is built) the pin1at seed is the scalar state
temperature minus 10.0.  The offset is the fixed literal 10 for all
inputs. -/
theorem claim_C1 (eng : XijaEngine) (rolls : States → List ℚ)
    (model_spec : ModelSpec) (states : States) (start stop : ℤ)
    (T_psmc : Option NpData) (T_psmc_times : Option (List ℤ))
    (dh_heater : Option (List Bool)) (dh_heater_times : Option (List ℤ)) :
    (calc_model eng rolls model_spec states start stop T_psmc T_psmc_times
        none none dh_heater dh_heater_times).inputs.pin1at_data
      = NpData.arr
          (((calc_model eng rolls model_spec states start stop T_psmc
              T_psmc_times none none dh_heater
              dh_heater_times).inputs.pdeaat_dvals).map
            (Option.map (fun v => v - 10)))
    ∧ ∀ (date2secs : String → ℤ) (fs : String → Option HtrbTable)
        (oflsdir : String) (s : State0) (htrb : HtrbTable),
        fs (pathJoin oflsdir dahtbonHistoryRdb) = some htrb →
        ∃ m, calc_model_wrapper eng rolls date2secs fs oflsdir model_spec
              states start stop (some s) = Except.ok m
          ∧ m.inputs.pin1at_data
              = NpData.scalar (s.tmsid.map (fun v => v - 10))
          ∧ m.inputs.pdeaat_data = some (NpData.scalar s.tmsid) := by
  constructor
  · rfl
  · intro date2secs fs oflsdir s htrb hfs
    refine ⟨calc_model eng rolls model_spec states start stop
        (some (NpData.scalar s.tmsid)) none
        (some (NpData.scalar (s.tmsid.map (fun v => v - 10)))) none
        (some (htrb.dahtbon.map (fun x => x != 0)))
        (some (htrb.time.map date2secs)), ?_, rfl, rfl⟩
    simp [calc_model_wrapper, hfs]

/-- Concrete filesystem holding a heater history table, for witnesses. -/
def wHtrb : HtrbTable := { time := ["2024:001", "2024:002"], dahtbon := [1, 0] }

/-- Concrete planning-products directory for witnesses. -/
def wOfls : String := "ofls"

def wFs : String → Option HtrbTable :=
  fun p => if p = pathJoin wOfls dahtbonHistoryRdb then some wHtrb else none

def wD2s : String → ℤ := fun _ => 0

/-- Witness for C1 at concrete engine, states and filesystem. -/
theorem claim_C1_witness :
    ((calc_model wEng wRolls wSpec wStates 0 1000 (some (NpData.scalar (some 45)))
        none none none none none).inputs.pin1at_data
      = NpData.arr
          (((calc_model wEng wRolls wSpec wStates 0 1000
              (some (NpData.scalar (some 45))) none none none none
              none).inputs.pdeaat_dvals).map
            (Option.map (fun v => v - 10))))
    ∧ ∃ m, calc_model_wrapper wEng wRolls wD2s wFs wOfls wSpec wStates 0 1000
            (some wSt0) = Except.ok m
        ∧ m.inputs.pin1at_data
            = NpData.scalar (wSt0.tmsid.map (fun v => v - 10))
        ∧ m.inputs.pdeaat_data = some (NpData.scalar wSt0.tmsid) :=
  ⟨(claim_C1 wEng wRolls wSpec wStates 0 1000 (some (NpData.scalar (some 45)))
      none none none).1,
   (claim_C1 wEng wRolls wSpec wStates 0 1000 (some (NpData.scalar (some 45)))
      none none none).2 wD2s wFs wOfls wSt0 wHtrb (by decide)⟩

/-- Claim C3: with an initial state present and the heater-command
history file absent, calc_model_wrapper fails with
MissingHeaterHistoryError at that path, produces no model (an ok result
is impossible), and never invokes the model calculation: the outcome is
the same for every engine. -/
theorem claim_C3 (eng : XijaEngine) (rolls : States → List ℚ)
    (date2secs : String → ℤ) (fs : String → Option HtrbTable)
    (oflsdir : String) (model_spec : ModelSpec) (states : States)
    (tstart tstop : ℤ) (s : State0)
    (hmiss : fs (pathJoin oflsdir dahtbonHistoryRdb) = none) :
    calc_model_wrapper eng rolls date2secs fs oflsdir model_spec states
        tstart tstop (some s)
      = Except.error
          (Err.MissingHeaterHistoryError (pathJoin oflsdir dahtbonHistoryRdb))
    ∧ (∀ m : XModel,
        calc_model_wrapper eng rolls date2secs fs oflsdir model_spec states
          tstart tstop (some s) ≠ Except.ok m)
    ∧ (∀ eng' : XijaEngine,
        calc_model_wrapper eng' rolls date2secs fs oflsdir model_spec states
            tstart tstop (some s)
          = calc_model_wrapper eng rolls date2secs fs oflsdir model_spec
              states tstart tstop (some s)) := by
  refine ⟨?_, ?_, ?_⟩
  · simp [calc_model_wrapper, hmiss]
  · intro m
    simp [calc_model_wrapper, hmiss]
  · intro eng'
    simp [calc_model_wrapper, hmiss]

/-- An empty filesystem: no heater-history file anywhere. -/
def cEmptyFs : String → Option HtrbTable := fun _ => none

/-- Witness for C3 on the empty filesystem. -/
theorem claim_C3_witness :
    calc_model_wrapper wEng wRolls wD2s cEmptyFs wOfls wSpec wStates 0 1000
        (some wSt0)
      = Except.error
          (Err.MissingHeaterHistoryError (pathJoin wOfls dahtbonHistoryRdb))
    ∧ (∀ m : XModel,
        calc_model_wrapper wEng wRolls wD2s cEmptyFs wOfls wSpec wStates 0 1000
          (some wSt0) ≠ Except.ok m)
    ∧ (∀ eng' : XijaEngine,
        calc_model_wrapper eng' wRolls wD2s cEmptyFs wOfls wSpec wStates 0 1000
            (some wSt0)
          = calc_model_wrapper wEng wRolls wD2s cEmptyFs wOfls wSpec wStates
              0 1000 (some wSt0)) :=
  claim_C3 wEng wRolls wD2s cEmptyFs wOfls wSpec wStates 0 1000 wSt0 rfl

/-- Claim C10: calc_model_wrapper touches the heater-history file if and
only if an initial state is present.  With state0 absent the result is
an ok model built with None for both temperature seeds and both heater
arguments, identically for every filesystem; with state0 present the
result matches on the file — error when it is absent, ok with the parsed
heater series when it is present. -/
theorem claim_C10 (eng : XijaEngine) (rolls : States → List ℚ)
    (date2secs : String → ℤ) (fs fs' : String → Option HtrbTable)
    (oflsdir : String) (model_spec : ModelSpec) (states : States)
    (tstart tstop : ℤ) :
    (calc_model_wrapper eng rolls date2secs fs oflsdir model_spec states
        tstart tstop none
      = Except.ok (calc_model eng rolls model_spec states tstart tstop
          none none none none none none)
     ∧ calc_model_wrapper eng rolls date2secs fs oflsdir model_spec states
          tstart tstop none
        = calc_model_wrapper eng rolls date2secs fs' oflsdir model_spec states
            tstart tstop none)
    ∧ ∀ s : State0,
        (fs (pathJoin oflsdir dahtbonHistoryRdb) = none →
          calc_model_wrapper eng rolls date2secs fs oflsdir model_spec states
              tstart tstop (some s)
            = Except.error (Err.MissingHeaterHistoryError
                (pathJoin oflsdir dahtbonHistoryRdb)))
        ∧ ∀ htrb : HtrbTable,
            fs (pathJoin oflsdir dahtbonHistoryRdb) = some htrb →
            calc_model_wrapper eng rolls date2secs fs oflsdir model_spec states
                tstart tstop (some s)
              = Except.ok (calc_model eng rolls model_spec states tstart tstop
                  (some (NpData.scalar s.tmsid)) none
                  (some (NpData.scalar (s.tmsid.map (fun v => v - 10)))) none
                  (some (htrb.dahtbon.map (fun x => x != 0)))
                  (some (htrb.time.map date2secs))) := by
  refine ⟨⟨rfl, rfl⟩, ?_⟩
  intro s
  constructor
  · intro hmiss
    simp [calc_model_wrapper, hmiss]
  · intro htrb hfs
    simp [calc_model_wrapper, hfs]

/-- Witness for C10: the no-state run ignores the filesystem (empty
versus populated), and the with-state run errors on the empty filesystem
and succeeds on the populated one. -/
theorem claim_C10_witness :
    (calc_model_wrapper wEng wRolls wD2s wFs wOfls wSpec wStates 0 1000 none
      = Except.ok (calc_model wEng wRolls wSpec wStates 0 1000
          none none none none none none)
     ∧ calc_model_wrapper wEng wRolls wD2s wFs wOfls wSpec wStates 0 1000 none
        = calc_model_wrapper wEng wRolls wD2s cEmptyFs wOfls wSpec wStates
            0 1000 none)
    ∧ (calc_model_wrapper wEng wRolls wD2s cEmptyFs wOfls wSpec wStates 0 1000
          (some wSt0)
        = Except.error (Err.MissingHeaterHistoryError
            (pathJoin wOfls dahtbonHistoryRdb)))
    ∧ (calc_model_wrapper wEng wRolls wD2s wFs wOfls wSpec wStates 0 1000
          (some wSt0)
        = Except.ok (calc_model wEng wRolls wSpec wStates 0 1000
            (some (NpData.scalar wSt0.tmsid)) none
            (some (NpData.scalar (wSt0.tmsid.map (fun v => v - 10)))) none
            (some (wHtrb.dahtbon.map (fun x => x != 0)))
            (some (wHtrb.time.map wD2s)))) :=
  ⟨(claim_C10 wEng wRolls wD2s wFs cEmptyFs wOfls wSpec wStates 0 1000).1,
   ((claim_C10 wEng wRolls wD2s cEmptyFs wFs wOfls wSpec wStates 0 1000).2
      wSt0).1 rfl,
   ((claim_C10 wEng wRolls wD2s wFs cEmptyFs wOfls wSpec wStates 0 1000).2
      wSt0).2 wHtrb (by decide)⟩

/-- Modelled from the spec: the parent-class write_states of
acis_thermal_check is not part of this repository; per the spec it
exports the planned state table with the listed columns removed before
export.  A table is its ordered list of named columns. -/
def super_write_states {α : Type} (states : List (String × α))
    (remove_cols : List String) : List (String × α) :=
  states.filter (fun c => !(remove_cols.contains c.1))

/-- PSMCModelCheck.write_states: delegates to the parent with
remove_cols = [T_pin1at]. -/
def write_states {α : Type} (states : List (String × α)) :
    List (String × α) :=
  super_write_states states ["T_pin1at"]

/-- Claim C6: write_states exports the state table with exactly the
internally-derived companion-sensor column T_pin1at removed; every other
column is kept unchanged and in order. -/
theorem claim_C6 {α : Type} (states : List (String × α)) :
    write_states states = states.filter (fun c => c.1 != "T_pin1at") := by
  unfold write_states super_write_states
  apply List.filter_congr
  intro c _
  cases h : c.1 == "T_pin1at" <;> simp_all [bne]

/-- The outcome of psmc_check.driver as observed by main: either a
normal return or a raised Exception carrying a message. -/
inductive DriverOutcome where
  | ok
  | raised (msg : String)
deriving DecidableEq

/-- What the process does on leaving main: return normally (exit status
0), print an error line and call sys.exit 1, or let the exception
propagate with its full traceback. -/
inductive MainOutcome where
  | exitZero
  | printedExit (line : String) (code : ℕ)
  | reraised (msg : String)
deriving DecidableEq

/-- The main entry point: run the driver; on an exception re-raise when
the traceback flag is set, otherwise print the message and exit 1. -/
def main (driver : DriverOutcome) (traceback : Bool) : MainOutcome :=
  match driver with
  | DriverOutcome.ok => MainOutcome.exitZero
  | DriverOutcome.raised msg =>
      if traceback then MainOutcome.reraised msg
      else MainOutcome.printedExit ("ERROR: " ++ msg) 1

/-- Claim C7: a successful driver run exits with status 0; a driver
exception with the traceback flag clear prints the error message and
exits with status 1; with the traceback flag set the exception is
re-raised instead of the terse message. -/
theorem claim_C7 (msg : String) (tb : Bool) :
    main DriverOutcome.ok tb = MainOutcome.exitZero
    ∧ main (DriverOutcome.raised msg) false
        = MainOutcome.printedExit ("ERROR: " ++ msg) 1
    ∧ main (DriverOutcome.raised msg) true = MainOutcome.reraised msg :=
  ⟨rfl, rfl, rfl⟩

end Psmc
